import Mathlib

/-!
Verification of the Virtual-Try-On application.

Shallow embedding of:
- the rate-limited proxy handler (src/unnamed/part_000, lines 35-99);
- the generation client (src/services/geminiService.ts, performVirtualTryOn
  and refineImage);
- the UI controller actions handleVirtualTryOn and handleRefine
  (src/services/geminiService.ts, App component part).

JavaScript truthiness of strings (null/undefined and "" are falsy) is
modelled by `truthy` on `Option String`.  The WHATWG fetch body-consumption
discipline (a response body may be read once; a second read rejects with
"Body is unusable") is modelled by the `bodyUsed` flag on `FetchResponse`:
`arrayBuffer` and `text` both consume the body and fail on an already
consumed one.
-/

deriving instance DecidableEq for Except

namespace VirtualTryOn

/-- JS truthiness of a possibly-absent string: undefined/null and "" are falsy. -/
def truthy : Option String → Bool
  | none => false
  | some s => !(s == "")

/-- JS `x || d` for a possibly-absent string `x`: yields `d` when `x` is
null/undefined or empty. -/
def jsOr : Option String → String → String
  | none, d => d
  | some s, d => if s == "" then d else s

/-- A JS whitespace character (the WhiteSpace and LineTerminator sets
relevant to `String.prototype.trim`). -/
def isJsWhitespace (ch : Char) : Bool :=
  ch == ' ' || ch == '\t' || ch == '\n' || ch == '\r'
    || ch == '\x0b' || ch == '\x0c' || ch == '\u00A0'
    || ch == '\u2028' || ch == '\u2029' || ch == '\uFEFF'

/-- JS `s.trim()`: strip leading and trailing whitespace. -/
def jsTrim (s : String) : String :=
  String.mk (((s.data.dropWhile isJsWhitespace).reverse.dropWhile isJsWhitespace).reverse)

/-- Prefer the first option when present, otherwise the second
(used to phrase "last occurrence wins" specifications). -/
def orO (a b : Option String) : Option String :=
  match a with
  | some v => some v
  | none => b

/-! ## Proxy handler (src/unnamed/part_000, rate-limited variant, lines 35-99) -/

/-- The upstream fetch `Response`.  `bodyUsed` records whether the body
stream has already been consumed (WHATWG fetch: a body can be read once). -/
structure FetchResponse where
  status : Nat
  contentTypeHeader : Option String
  bodyBytes : List Nat
  bodyText : String
  bodyUsed : Bool
deriving DecidableEq

/-- `Response.arrayBuffer()`: yields the raw bytes and marks the body
consumed; rejects if the body was already read. -/
def FetchResponse.arrayBuffer (r : FetchResponse) :
    Except String (List Nat × FetchResponse) :=
  if r.bodyUsed then Except.error "Body is unusable: Body has already been read"
  else Except.ok (r.bodyBytes, { r with bodyUsed := true })

/-- `Response.text()`: yields the body decoded as text and marks the body
consumed; rejects if the body was already read. -/
def FetchResponse.text (r : FetchResponse) :
    Except String (String × FetchResponse) :=
  if r.bodyUsed then Except.error "Body is unusable: Body has already been read"
  else Except.ok (r.bodyText, { r with bodyUsed := true })

/-- `Response.ok`: status in the range 200-299. -/
def FetchResponse.respOk (r : FetchResponse) : Bool :=
  200 ≤ r.status && r.status ≤ 299

/-- The two environment variables the handler reads (part_000 lines 46-47). -/
structure Env where
  GEMINI_API_URL : Option String
  GEMINI_API_KEY : Option String
deriving DecidableEq

/-- The incoming request: its HTTP method and its JSON body. -/
structure ProxyRequest where
  method : String
  body : String
deriving DecidableEq

/-- The body the handler sends back: raw relayed bytes (`res.send`), a JSON
error envelope (`res.json`) or a plain text terminator (`res.end`). -/
inductive ResponseBody where
  | raw (bytes : List Nat)
  | jsonError (error : String) (details : Option String)
  | textBody (s : String)
deriving DecidableEq

/-- The response the handler produces: status, the `Allow` header if set,
the `Content-Type` header if set, and the body. -/
structure ProxyResponse where
  status : Nat
  allowHeader : Option String
  contentType : Option String
  body : ResponseBody
deriving DecidableEq

/-- The observable effect of one handler invocation: the response and
whether an upstream fetch was attempted. -/
structure HandlerResult where
  response : ProxyResponse
  upstreamCalled : Bool
deriving DecidableEq

/-- The catch-block response (part_000 lines 95-98):
`res.status(500).json(\x7b error: 'Server error', details: err.message \x7d)`.
`res.json` sets `Content-Type: application/json`. -/
def serverError (msg : String) : ProxyResponse :=
  { status := 500, allowHeader := none, contentType := some "application/json",
    body := ResponseBody.jsonError "Server error" (some msg) }

/-- The quota message of the 429 branch (part_000 line 76). -/
def quotaMessage : String :=
  "Quota exceeded. Please wait and try again later, or upgrade your Google Cloud billing plan."

/-- The rate-limited proxy handler (part_000 lines 39-99).  `upstream` is
the outcome of the (rate-limited) `fetch` to `GEMINI_API_URL`: either a
resolved response or a rejection message; a rejection, like any other
exception inside the `try`, lands in the catch block. -/
def handler (env : Env) (req : ProxyRequest)
    (upstream : Except String FetchResponse) : HandlerResult :=
  -- lines 40-43: non-POST methods get 405 with Allow: POST
  if req.method ≠ "POST" then
    { response := { status := 405, allowHeader := some "POST", contentType := none,
                    body := ResponseBody.textBody "Method Not Allowed" },
      upstreamCalled := false }
  -- lines 49-51: missing configuration gets 500, before any fetch
  else if !(truthy env.GEMINI_API_URL && truthy env.GEMINI_API_KEY) then
    { response := { status := 500, allowHeader := none,
                    contentType := some "application/json",
                    body := ResponseBody.jsonError
                      "Missing GEMINI_API_URL or GEMINI_API_KEY" none },
      upstreamCalled := false }
  else
    match upstream with
    | Except.error msg => { response := serverError msg, upstreamCalled := true }
    | Except.ok resp0 =>
      -- line 68: headers.get('content-type') || 'application/json'
      let contentType := jsOr resp0.contentTypeHeader "application/json"
      -- line 69: const buffer = await externalResp.arrayBuffer()
      match resp0.arrayBuffer with
      | Except.error msg => { response := serverError msg, upstreamCalled := true }
      | Except.ok (buffer, resp1) =>
        -- lines 72-79: 429 branch; text() re-reads the consumed body
        if resp1.status = 429 then
          match resp1.text with
          | Except.error msg => { response := serverError msg, upstreamCalled := true }
          | Except.ok (errorText, _) =>
            { response := { status := 429, allowHeader := none,
                            contentType := some "application/json",
                            body := ResponseBody.jsonError quotaMessage (some errorText) },
              upstreamCalled := true }
        -- lines 82-89: other non-OK branch; same re-read of the body
        else if !resp1.respOk then
          match resp1.text with
          | Except.error msg => { response := serverError msg, upstreamCalled := true }
          | Except.ok (errorText, _) =>
            { response := { status := resp1.status, allowHeader := none,
                            contentType := some "application/json",
                            body := ResponseBody.jsonError "API error occurred" (some errorText) },
              upstreamCalled := true }
        -- lines 92-94: success passthrough
        else
          { response := { status := resp1.status, allowHeader := none,
                          contentType := some contentType,
                          body := ResponseBody.raw buffer },
            upstreamCalled := true }

/-! ## Generation client (src/services/geminiService.ts) -/

/-- An `inlineData` fragment: base64 payload plus MIME type. -/
structure InlineData where
  data : String
  mimeType : String
deriving DecidableEq

/-- One content part of a request or response: it may carry `inlineData`
and/or `text` (in JS either property may be absent). -/
structure Part where
  inlineData : Option InlineData
  text : Option String
deriving DecidableEq

/-- A candidate's `content`: an ordered list of parts. -/
structure Content where
  parts : List Part
deriving DecidableEq

/-- One provider candidate. -/
structure Candidate where
  content : Content
deriving DecidableEq

/-- A provider response: `candidates` may be absent altogether. -/
structure GenResponse where
  candidates : Option (List Candidate)
deriving DecidableEq

/-- The request `ai.models.generateContent` is invoked with. -/
structure GenRequest where
  model : String
  parts : List Part
  responseModalities : List String
deriving DecidableEq

/-- The environment the browser-side client reads (`process.env.API_KEY`). -/
structure ClientEnv where
  API_KEY : Option String
deriving DecidableEq

/-- The observable outcome of one client call: the returned pair (or the
propagated error message), and whether the network call was made. -/
structure ClientResult where
  outcome : Except String (Option String × Option String)
  networkCalled : Bool
deriving DecidableEq

/-- The extraction loop of geminiService.ts lines 68-76 (and identically
lines 119-127): walk the first candidate's parts left to right, overwriting
the image on every `inlineData` part and the text on every part that lacks
`inlineData` but carries nonempty `text`. -/
def extractLoop : List Part → Option String → Option String → Option String × Option String
  | [], img, txt => (img, txt)
  | p :: rest, img, txt =>
    match p.inlineData with
    | some d => extractLoop rest (some d.data) txt
    | none =>
      match p.text with
      | some s => if s == "" then extractLoop rest img txt else extractLoop rest img (some s)
      | none => extractLoop rest img txt

/-- Lines 65-78 / 116-129: run the loop over the first candidate's parts;
when `candidates` is absent or empty, both fields stay null. -/
def extractImageAndText (r : GenResponse) : Option String × Option String :=
  match r.candidates with
  | some (c0 :: _) => extractLoop c0.content.parts none none
  | _ => (none, none)

/-- The fixed try-on instruction (geminiService.ts lines 14-39). -/
def tryOnPrompt : String :=
  "Objective: Transfer the garment from Image 2 onto the person in Image 1.\n\nInput Image 1: Person photo (the model).\nInput Image 2: Garment photo (standalone clothing or clothing worn by someone else).\n\nInstructions:\n\nDetect the garment in Image 2 and replicate it exactly — preserve shape, fabric, color, patterns, and textures.\n\nOverlay this garment onto the person in Image 1, replacing their original clothing.\n\nEnsure the garment naturally fits the body, pose, and proportions of the person.\n\nMatch lighting, shading, and perspective so the garment blends seamlessly into Image 1.\n\nHard Constraints (Do Not Break):\n\nKeep the person’s face, hair, skin, body shape, and pose unchanged.\n\nKeep the background of Image 1 unchanged.\n\nDo not modify or add extra details to the garment — replicate exactly what appears in Image 2.\n\nDo not output anything except the final edited image."

/-- The fixed refinement instruction with the user text interpolated
(geminiService.ts lines 91-96). -/
def refinementPromptFor (userPrompt : String) : String :=
  "Your task is to edit the provided image based on the user\x27s instruction.\n  - Apply the user\x27s request precisely.\n  - Only change what is requested. Preserve all other aspects of the image, including the person, background, and unmodified parts of the clothing.\n  - Output ONLY the final, edited image. Do not include any text.\n\n  User instruction: \"" ++ userPrompt ++ "\""

/-- geminiService.ts lines 3-79.  `provider` is the external
`generateContent` endpoint: either a resolved response or a rejection. -/
def performVirtualTryOn (env : ClientEnv)
    (provider : GenRequest → Except String GenResponse)
    (personImageBase64 clothingImageBase64 personMimeType clothingMimeType : String) :
    ClientResult :=
  -- lines 9-11: throw before any network call when API_KEY is unset
  if !(truthy env.API_KEY) then
    { outcome := Except.error "API_KEY environment variable is not set.",
      networkCalled := false }
  else
    -- lines 41-63: request with two inline images plus the fixed prompt
    let req : GenRequest :=
      { model := "gemini-2.5-flash-image-preview",
        parts := [ { inlineData := some { data := personImageBase64, mimeType := personMimeType }, text := none },
                   { inlineData := some { data := clothingImageBase64, mimeType := clothingMimeType }, text := none },
                   { inlineData := none, text := some tryOnPrompt } ],
        responseModalities := ["IMAGE", "TEXT"] }
    match provider req with
    | Except.error e => { outcome := Except.error e, networkCalled := true }
    | Except.ok response =>
        { outcome := Except.ok (extractImageAndText response), networkCalled := true }

/-- geminiService.ts lines 81-130: same call shape with one image and the
refinement prompt; same extraction of the response. -/
def refineImage (env : ClientEnv)
    (provider : GenRequest → Except String GenResponse)
    (imageBase64 mimeType userPrompt : String) : ClientResult :=
  -- lines 86-88: throw before any network call when API_KEY is unset
  if !(truthy env.API_KEY) then
    { outcome := Except.error "API_KEY environment variable is not set.",
      networkCalled := false }
  else
    let req : GenRequest :=
      { model := "gemini-2.5-flash-image-preview",
        parts := [ { inlineData := some { data := imageBase64, mimeType := mimeType }, text := none },
                   { inlineData := none, text := some (refinementPromptFor userPrompt) } ],
        responseModalities := ["IMAGE", "TEXT"] }
    match provider req with
    | Except.error e => { outcome := Except.error e, networkCalled := true }
    | Except.ok response =>
        { outcome := Except.ok (extractImageAndText response), networkCalled := true }

/-! ## UI controller (App component, geminiService.ts part 2) -/

/-- The uploaded file handle: only its MIME type is observable here. -/
structure FileData where
  mimeType : String
deriving DecidableEq

/-- `ImageState`: preview data-URL plus the original file. -/
structure ImageState where
  preview : String
  file : FileData
deriving DecidableEq

/-- The App component's state fields. -/
structure AppState where
  personImage : Option ImageState
  clothingImage : Option ImageState
  resultImage : Option String
  isLoading : Bool
  isRefining : Bool
  error : Option String
  refinePrompt : String
deriving DecidableEq

/-- `handleVirtualTryOn` (App lines 177-211).  `call` is the settled
outcome of encoding the images and awaiting `performVirtualTryOn`: a
result pair or the thrown error's message.  Returns the new state and
whether the generation client was invoked. -/
def handleVirtualTryOn (s : AppState)
    (call : Except String (Option String × Option String)) : AppState × Bool :=
  -- lines 178-181: guard, before setting any flag
  if s.personImage.isNone || s.clothingImage.isNone then
    ({ s with error := some "Please upload both a person and a clothing image." }, false)
  else
    -- lines 183-185: on entry set loading, clear error and prior result
    let s1 : AppState := { s with isLoading := true, error := none, resultImage := none }
    let s2 : AppState :=
      match call with
      | Except.ok result =>
        match result.1 with
        -- lines 198-199: wrap the returned base64 into a data URL
        | some img => { s1 with resultImage := some ("data:image/png;base64," ++ img) }
        -- line 201 throws; lines 204-207 catch and set the error
        | none => { s1 with error := some "Failed to generate image: The AI model did not return an image. Please try again with different images." }
      | Except.error msg => { s1 with error := some ("Failed to generate image: " ++ msg) }
    -- lines 208-210: finally clear loading
    ({ s2 with isLoading := false }, true)

/-- `handleRefine` (App lines 213-239).  `call` is the settled outcome of
awaiting `refineImage`. -/
def handleRefine (s : AppState)
    (call : Except String (Option String × Option String)) : AppState × Bool :=
  -- lines 214-217: guard, before setting any flag
  if !(truthy s.resultImage) || jsTrim s.refinePrompt == "" then
    ({ s with error := some "Cannot refine without a result image and a prompt." }, false)
  else
    -- lines 219-220: on entry set refining, clear error
    let s1 : AppState := { s with isRefining := true, error := none }
    let s2 : AppState :=
      match call with
      | Except.ok result =>
        match result.1 with
        -- lines 226-228: replace result, clear prompt on success
        | some img => { s1 with resultImage := some ("data:image/png;base64," ++ img),
                                refinePrompt := "" }
        -- line 230 throws; lines 232-235 catch and set the error
        | none => { s1 with error := some "Failed to refine image: The AI model did not return a refined image." }
      | Except.error msg => { s1 with error := some ("Failed to refine image: " ++ msg) }
    -- lines 236-238: finally clear refining
    ({ s2 with isRefining := false }, true)

/-! ## Specification-side definitions for the extraction order (claim C2) -/

/-- The parts of the first candidate (empty when `candidates` is absent or
empty). -/
def candidateParts (r : GenResponse) : List Part :=
  match r.candidates with
  | some (c0 :: _) => c0.content.parts
  | _ => []

/-- Spec wording, claim as stated: payload of the FIRST part carrying
`inlineData`. -/
def specFirstInlineData (ps : List Part) : Option String :=
  ps.findSome? (fun p => p.inlineData.map InlineData.data)

/-- Spec wording, claim as stated: the FIRST text fragment among the parts. -/
def specFirstText (ps : List Part) : Option String :=
  ps.findSome? Part.text

/-- Amended spec wording: payload of the LAST part carrying `inlineData`
(later parts take precedence). -/
def specLastInlineData : List Part → Option String
  | [] => none
  | p :: rest => orO (specLastInlineData rest) (p.inlineData.map InlineData.data)

/-- Amended spec wording: the LAST nonempty text among the parts that carry
no `inlineData` (later parts take precedence). -/
def specLastText : List Part → Option String
  | [] => none
  | p :: rest =>
    orO (specLastText rest)
      (match p.inlineData, p.text with
       | none, some s => if s == "" then none else some s
       | _, _ => none)

/-! ## Concrete sample inputs -/

/-- A configured environment for the proxy. -/
def envOK : Env :=
  { GEMINI_API_URL := some "https://upstream.example/v1/generate",
    GEMINI_API_KEY := some "secret-key" }

/-- A fresh upstream 200 response. -/
def sample200 : FetchResponse :=
  { status := 200, contentTypeHeader := some "image/png",
    bodyBytes := [1, 2, 3], bodyText := "abc", bodyUsed := false }

/-- A fresh upstream 429 response carrying an error text. -/
def sample429 : FetchResponse :=
  { status := 429, contentTypeHeader := some "application/json",
    bodyBytes := [7, 8], bodyText := "RESOURCE_EXHAUSTED", bodyUsed := false }

/-- A fresh upstream 200 response with no content-type header. -/
def sampleNoCT : FetchResponse :=
  { status := 200, contentTypeHeader := none,
    bodyBytes := [9], bodyText := "x", bodyUsed := false }

/-- A client environment with the API key present. -/
def envClient : ClientEnv := { API_KEY := some "k" }

/-- A response whose first candidate has two inlineData parts followed by
two text parts. -/
def respMulti : GenResponse :=
  { candidates := some [ { content := { parts := [
      { inlineData := some { data := "imgA", mimeType := "image/png" }, text := none },
      { inlineData := some { data := "imgB", mimeType := "image/png" }, text := none },
      { inlineData := none, text := some "textOne" },
      { inlineData := none, text := some "textTwo" } ] } } ] }

/-- A response whose first candidate has exactly one inlineData part and
one text part. -/
def respOnePair : GenResponse :=
  { candidates := some [ { content := { parts := [
      { inlineData := some { data := "img1", mimeType := "image/png" }, text := none },
      { inlineData := none, text := some "hello" } ] } } ] }

/-- An App state holding only the person image. -/
def stateOneImage : AppState :=
  { personImage := some { preview := "data:p", file := { mimeType := "image/jpeg" } },
    clothingImage := none, resultImage := none, isLoading := false,
    isRefining := false, error := none, refinePrompt := "" }

/-- An App state holding a result image and a nonempty refinement prompt. -/
def stateWithResult : AppState :=
  { personImage := none, clothingImage := none,
    resultImage := some "data:image/png;base64,res", isLoading := false,
    isRefining := true, error := none, refinePrompt := "make the shirt red" }

/-! ## Helper lemmas -/

lemma orO_none_right (a : Option String) : orO a none = a := by
  cases a <;> rfl

lemma orO_some_absorb (a : Option String) (v : String) (b : Option String) :
    orO (orO a (some v)) b = orO a (some v) := by
  cases a <;> rfl

/-- The overwrite loop computes, for each slot, the last matching part of
the list when there is one, and otherwise keeps the accumulator. -/
lemma extractLoop_spec (ps : List Part) (img txt : Option String) :
    extractLoop ps img txt
      = (orO (specLastInlineData ps) img, orO (specLastText ps) txt) := by
  induction ps generalizing img txt with
  | nil => simp [extractLoop, specLastInlineData, specLastText, orO]
  | cons p rest ih =>
    cases hI : p.inlineData with
    | some d =>
      simp [extractLoop, hI, specLastInlineData, specLastText, ih,
            orO_some_absorb, orO_none_right]
    | none =>
      cases hT : p.text with
      | some s =>
        by_cases hs : s == ""
        · simp [extractLoop, hI, hT, hs, specLastInlineData, specLastText, ih,
                orO_none_right]
        · simp [extractLoop, hI, hT, hs, specLastInlineData, specLastText, ih,
                orO_some_absorb, orO_none_right]
      | none =>
        simp [extractLoop, hI, hT, specLastInlineData, specLastText, ih,
              orO_none_right]

/-- The extraction keeps the last inlineData payload and the last nonempty
text among the first candidate's parts without inlineData. -/
lemma extract_eq_spec (r : GenResponse) :
    extractImageAndText r
      = (specLastInlineData (candidateParts r), specLastText (candidateParts r)) := by
  cases hc : r.candidates with
  | none =>
    simp [extractImageAndText, candidateParts, hc, specLastInlineData, specLastText]
  | some cs =>
    cases cs with
    | nil =>
      simp [extractImageAndText, candidateParts, hc, specLastInlineData, specLastText]
    | cons c0 rest =>
      simp [extractImageAndText, candidateParts, hc, extractLoop_spec, orO_none_right]

/-! ## Claim theorems: proxy handler -/

/-- C4: every request whose method is not POST gets status 405 with the
Allow header set to POST. -/
theorem proxy_non_post (env : Env) (req : ProxyRequest)
    (upstream : Except String FetchResponse) (h : req.method ≠ "POST") :
    (handler env req upstream).response.status = 405
    ∧ (handler env req upstream).response.allowHeader = some "POST" := by
  simp [handler, h]

/-- Witness for C4: a GET request. -/
theorem proxy_non_post_witness :
    ((ProxyRequest.mk "GET" "").method ≠ "POST")
    ∧ ((handler (Env.mk none none) (ProxyRequest.mk "GET" "") (Except.error "no call")).response.status = 405
       ∧ (handler (Env.mk none none) (ProxyRequest.mk "GET" "") (Except.error "no call")).response.allowHeader = some "POST") :=
  ⟨by decide,
   proxy_non_post (Env.mk none none) (ProxyRequest.mk "GET" "") (Except.error "no call") (by decide)⟩

/-- C5: for a POST request with either environment variable unset or empty,
the handler responds 500 with the error body and no upstream call is
attempted. -/
theorem proxy_missing_env (env : Env) (req : ProxyRequest)
    (upstream : Except String FetchResponse) (hm : req.method = "POST")
    (henv : truthy env.GEMINI_API_URL = false ∨ truthy env.GEMINI_API_KEY = false) :
    (handler env req upstream).response.status = 500
    ∧ (handler env req upstream).response.body
        = ResponseBody.jsonError "Missing GEMINI_API_URL or GEMINI_API_KEY" none
    ∧ (handler env req upstream).upstreamCalled = false := by
  rcases henv with h | h <;> simp [handler, hm, h]

/-- Witness for C5: POST with the URL unset. -/
theorem proxy_missing_env_witness :
    ((ProxyRequest.mk "POST" "payload").method = "POST")
    ∧ (truthy (Env.mk none (some "secret-key")).GEMINI_API_URL = false
       ∨ truthy (Env.mk none (some "secret-key")).GEMINI_API_KEY = false)
    ∧ ((handler (Env.mk none (some "secret-key")) (ProxyRequest.mk "POST" "payload") (Except.error "no call")).response.status = 500
       ∧ (handler (Env.mk none (some "secret-key")) (ProxyRequest.mk "POST" "payload") (Except.error "no call")).response.body
           = ResponseBody.jsonError "Missing GEMINI_API_URL or GEMINI_API_KEY" none
       ∧ (handler (Env.mk none (some "secret-key")) (ProxyRequest.mk "POST" "payload") (Except.error "no call")).upstreamCalled = false) :=
  ⟨rfl, Or.inl rfl,
   proxy_missing_env (Env.mk none (some "secret-key")) (ProxyRequest.mk "POST" "payload")
     (Except.error "no call") rfl (Or.inl rfl)⟩

/-- C3: for a POST request with both environment variables set, when the
upstream resolves with status 200, a nonempty content-type T and fresh body
bytes B, the handler responds 200 with content-type T and body exactly B. -/
theorem proxy_success_passthrough (env : Env) (req : ProxyRequest)
    (resp : FetchResponse) (T : String)
    (hm : req.method = "POST")
    (hu : truthy env.GEMINI_API_URL = true) (hk : truthy env.GEMINI_API_KEY = true)
    (hs : resp.status = 200) (hct : resp.contentTypeHeader = some T) (hT : T ≠ "")
    (hfresh : resp.bodyUsed = false) :
    handler env req (Except.ok resp)
      = { response := { status := 200, allowHeader := none, contentType := some T,
                        body := ResponseBody.raw resp.bodyBytes },
          upstreamCalled := true } := by
  simp [handler, hm, hu, hk, FetchResponse.arrayBuffer, hfresh,
        FetchResponse.respOk, hs, jsOr, hct, hT]

/-- Witness for C3. -/
theorem proxy_success_passthrough_witness :
    ((ProxyRequest.mk "POST" "payload").method = "POST")
    ∧ truthy envOK.GEMINI_API_URL = true
    ∧ truthy envOK.GEMINI_API_KEY = true
    ∧ sample200.status = 200
    ∧ sample200.contentTypeHeader = some "image/png"
    ∧ ("image/png" : String) ≠ ""
    ∧ sample200.bodyUsed = false
    ∧ handler envOK (ProxyRequest.mk "POST" "payload") (Except.ok sample200)
        = { response := { status := 200, allowHeader := none,
                          contentType := some "image/png",
                          body := ResponseBody.raw [1, 2, 3] },
            upstreamCalled := true } :=
  ⟨rfl, by decide, by decide, rfl, rfl, by decide, rfl,
   proxy_success_passthrough envOK (ProxyRequest.mk "POST" "payload") sample200 "image/png"
     rfl (by decide) (by decide) rfl rfl (by decide) rfl⟩

/-- C10: when the upstream response carries no content-type header, the
handler's response carries `Content-Type: application/json` (on the
passthrough path the default is substituted; on the error paths `res.json`
sets it). -/
theorem proxy_default_content_type (env : Env) (req : ProxyRequest)
    (resp : FetchResponse)
    (hm : req.method = "POST")
    (hu : truthy env.GEMINI_API_URL = true) (hk : truthy env.GEMINI_API_KEY = true)
    (hct : resp.contentTypeHeader = none) (hfresh : resp.bodyUsed = false) :
    (handler env req (Except.ok resp)).response.contentType = some "application/json" := by
  simp only [handler, hm, hu, hk]
  simp only [ne_eq, not_true_eq_false, if_false, truthy, Bool.and_self,
             Bool.not_true, Bool.if_false_left]
  simp [FetchResponse.arrayBuffer, hfresh, FetchResponse.text, jsOr, hct, serverError]
  split
  · rfl
  · split <;> rfl

/-- Witness for C10. -/
theorem proxy_default_content_type_witness :
    ((ProxyRequest.mk "POST" "payload").method = "POST")
    ∧ truthy envOK.GEMINI_API_URL = true
    ∧ truthy envOK.GEMINI_API_KEY = true
    ∧ sampleNoCT.contentTypeHeader = none
    ∧ sampleNoCT.bodyUsed = false
    ∧ (handler envOK (ProxyRequest.mk "POST" "payload") (Except.ok sampleNoCT)).response.contentType
        = some "application/json" :=
  ⟨rfl, by decide, by decide, rfl, rfl,
   proxy_default_content_type envOK (ProxyRequest.mk "POST" "payload") sampleNoCT
     rfl (by decide) (by decide) rfl rfl⟩

/-- C1 (refuted by the code): on an upstream 429 the handler does NOT
respond 429.  Line 69 consumes the response body with `arrayBuffer()`;
the 429 branch then calls `text()` on the same response, which rejects
because the body was already read, so the catch block answers 500 with a
generic server-error envelope instead of the intended 429 quota reply. -/
theorem proxy_429_yields_500 :
    handler envOK (ProxyRequest.mk "POST" "payload") (Except.ok sample429)
      = { response := serverError "Body is unusable: Body has already been read",
          upstreamCalled := true }
    ∧ (handler envOK (ProxyRequest.mk "POST" "payload") (Except.ok sample429)).response.status ≠ 429
    ∧ (handler envOK (ProxyRequest.mk "POST" "payload") (Except.ok sample429)).response.body
        ≠ ResponseBody.jsonError quotaMessage (some sample429.bodyText) := by
  refine ⟨by decide, by decide, by decide⟩

/-! ## Claim theorems: generation client -/

/-- C2 counterexample: with two inlineData parts and two text parts in the
first candidate, the claimed "first" values are imgA/textOne, yet both
client operations return imgB/textTwo — the loop keeps the LAST match. -/
theorem genclient_first_counterexample :
    specFirstInlineData (candidateParts respMulti) = some "imgA"
    ∧ specFirstText (candidateParts respMulti) = some "textOne"
    ∧ (performVirtualTryOn envClient (fun _ => Except.ok respMulti) "p" "c" "m1" "m2").outcome
        = Except.ok (some "imgB", some "textTwo")
    ∧ (refineImage envClient (fun _ => Except.ok respMulti) "i" "m" "u").outcome
        = Except.ok (some "imgB", some "textTwo") := by
  refine ⟨by decide, by decide, by decide, by decide⟩

/-- C2 (amended): both client operations return the LAST inlineData payload
among the first candidate's parts and the LAST nonempty text among the
parts without inlineData; each field is null when no such part exists, and
both are null when there are no candidates. -/
theorem genclient_returns_last (r : GenResponse) (env : ClientEnv)
    (h : truthy env.API_KEY = true)
    (p c mp mc i m u : String) :
    extractImageAndText r
      = (specLastInlineData (candidateParts r), specLastText (candidateParts r))
    ∧ (performVirtualTryOn env (fun _ => Except.ok r) p c mp mc).outcome
        = Except.ok (extractImageAndText r)
    ∧ (refineImage env (fun _ => Except.ok r) i m u).outcome
        = Except.ok (extractImageAndText r) := by
  refine ⟨extract_eq_spec r, ?_, ?_⟩ <;>
    simp [performVirtualTryOn, refineImage, h]

/-- Witness for amended C2: a candidate with exactly one inlineData part
and one text part. -/
theorem genclient_returns_last_witness :
    truthy envClient.API_KEY = true
    ∧ (extractImageAndText respOnePair
         = (specLastInlineData (candidateParts respOnePair), specLastText (candidateParts respOnePair))
       ∧ (performVirtualTryOn envClient (fun _ => Except.ok respOnePair) "p" "c" "m1" "m2").outcome
           = Except.ok (extractImageAndText respOnePair)
       ∧ (refineImage envClient (fun _ => Except.ok respOnePair) "i" "m" "u").outcome
           = Except.ok (extractImageAndText respOnePair)) :=
  ⟨by decide,
   genclient_returns_last respOnePair envClient (by decide) "p" "c" "m1" "m2" "i" "m" "u"⟩

/-- C7: with API_KEY unset or empty, both client operations return the
fixed error and make no network call. -/
theorem client_requires_api_key (env : ClientEnv) (h : truthy env.API_KEY = false)
    (provider : GenRequest → Except String GenResponse) (a b c d i m u : String) :
    performVirtualTryOn env provider a b c d
      = { outcome := Except.error "API_KEY environment variable is not set.",
          networkCalled := false }
    ∧ refineImage env provider i m u
      = { outcome := Except.error "API_KEY environment variable is not set.",
          networkCalled := false } := by
  constructor <;> simp [performVirtualTryOn, refineImage, h]

/-- Witness for C7. -/
theorem client_requires_api_key_witness :
    truthy (ClientEnv.mk none).API_KEY = false
    ∧ (performVirtualTryOn (ClientEnv.mk none) (fun _ => Except.error "net") "a" "b" "c" "d"
         = { outcome := Except.error "API_KEY environment variable is not set.",
             networkCalled := false }
       ∧ refineImage (ClientEnv.mk none) (fun _ => Except.error "net") "i" "m" "u"
         = { outcome := Except.error "API_KEY environment variable is not set.",
             networkCalled := false }) :=
  ⟨rfl,
   client_requires_api_key (ClientEnv.mk none) rfl (fun _ => Except.error "net")
     "a" "b" "c" "d" "i" "m" "u"⟩

/-! ## Claim theorems: UI controller -/

/-- C8: when at most one of the two images is present, the generate action
only sets the error message: the loading flag is untouched and the
generation client is not invoked. -/
theorem generate_requires_both_images (s : AppState)
    (call : Except String (Option String × Option String))
    (h : s.personImage = none ∨ s.clothingImage = none) :
    handleVirtualTryOn s call
      = ({ s with error := some "Please upload both a person and a clothing image." },
         false) := by
  rcases h with h | h <;> simp [handleVirtualTryOn, h]

/-- Witness for C8: only the person image is present. -/
theorem generate_requires_both_images_witness :
    (stateOneImage.personImage = none ∨ stateOneImage.clothingImage = none)
    ∧ handleVirtualTryOn stateOneImage (Except.error "never")
        = ({ stateOneImage with
              error := some "Please upload both a person and a clothing image." },
           false) :=
  ⟨Or.inr rfl,
   generate_requires_both_images stateOneImage (Except.error "never") (Or.inr rfl)⟩

/-- C9: with a result image present and a nonempty (after trim) prompt, a
refine call returning an image replaces the result with the data URL of
that image, clears the prompt field and clears the refining flag; the
refining flag is cleared on every completion, errors included. -/
theorem refine_success_updates (s : AppState)
    (h1 : truthy s.resultImage = true) (h2 : jsTrim s.refinePrompt ≠ "") :
    (∀ img t,
        (handleRefine s (Except.ok (some img, t))).1.resultImage
            = some ("data:image/png;base64," ++ img)
        ∧ (handleRefine s (Except.ok (some img, t))).1.refinePrompt = ""
        ∧ (handleRefine s (Except.ok (some img, t))).1.isRefining = false)
    ∧ (∀ call, (handleRefine s call).1.isRefining = false) := by
  have hguard : (!(truthy s.resultImage) || jsTrim s.refinePrompt == "") = false := by
    simp [h1, h2]
  constructor
  · intro img t
    simp [handleRefine, hguard]
  · intro call
    cases call with
    | error e => simp [handleRefine, hguard]
    | ok res =>
      rcases res with ⟨a, b⟩
      cases a <;> simp [handleRefine, hguard]

/-- Witness for C9. -/
theorem refine_success_updates_witness :
    truthy stateWithResult.resultImage = true
    ∧ jsTrim stateWithResult.refinePrompt ≠ ""
    ∧ ((handleRefine stateWithResult (Except.ok (some "newImg", none))).1.resultImage
         = some ("data:image/png;base64," ++ "newImg")
       ∧ (handleRefine stateWithResult (Except.ok (some "newImg", none))).1.refinePrompt = ""
       ∧ (handleRefine stateWithResult (Except.ok (some "newImg", none))).1.isRefining = false) :=
  ⟨by decide, by decide,
   (refine_success_updates stateWithResult (by decide) (by decide)).1 "newImg" none⟩

end VirtualTryOn
